import Mathlib

/-!
Verification of the command dispatch/execution engine of the terminal
repository (`src/command_handler.py`).  The Python class `CommandHandler`
is shallowly embedded: the mutable session (`current_directory`, the
process working directory and the filesystem seen through the `os`,
`shutil` and `pathlib` calls) becomes an explicit `ShellState` value that
every handler threads through; Python exceptions become an explicit
`Except` channel carrying the message of `str(e)` together with the state
at raise time; `psutil`, `getpass`, `datetime` and `subprocess` are
external collaborators and are modelled as oracles stored in a read-only
`World`.  The model is POSIX (`platform.system() != "Windows"`, `os.path`
= `posixpath`, path separator `/`), has no permission failures and no
symbolic links.
-/

/-! ## Python string primitives (`str.strip`, `str.split`, `str.lower`) -/

/-- The characters Python's default `str.strip` / `str.split` treat as
whitespace. -/
def pyWS (c : Char) : Bool :=
  c = ' ' ∨ c = '\t' ∨ c = '\n' ∨ c = '\r' ∨ c = '\x0b' ∨ c = '\x0c'

/-- Leading- and trailing-whitespace removal on the character list,
as in Python `str.strip()` with no argument. -/
def stripChars (l : List Char) : List Char :=
  ((l.dropWhile pyWS).reverse.dropWhile pyWS).reverse

/-- `str.strip()`. -/
def pyStrip (s : String) : String := String.mk (stripChars s.data)

/-- Accumulator pass of Python `str.split()` (split on whitespace runs,
discarding empty pieces). -/
def splitWSAux : List Char → List Char → List (List Char)
  | [], acc => if acc = [] then [] else [acc.reverse]
  | c :: cs, acc =>
      if pyWS c then
        if acc = [] then splitWSAux cs [] else acc.reverse :: splitWSAux cs []
      else splitWSAux cs (c :: acc)

/-- `str.split()` with no argument. -/
def pySplit (s : String) : List String :=
  (splitWSAux s.data []).map String.mk

/-- `str.lower()` (the command names in play are ASCII). -/
def pyLower (s : String) : String := String.mk (s.data.map Char.toLower)

/-- Substring test (Python's `in` on strings), on character lists. -/
def containsSub (hay needle : List Char) : Bool :=
  match hay with
  | [] => needle = []
  | _ :: t => needle.isPrefixOf hay || containsSub t needle

/-- Python `needle in hay` for strings. -/
def strContains (hay needle : String) : Bool := containsSub hay.data needle.data

/-- `str.startswith`, structurally on the character lists. -/
def pyStartsWith (s pre : String) : Bool := pre.data.isPrefixOf s.data

/-- `str.endswith`, structurally on the character lists. -/
def pyEndsWith (s suf : String) : Bool := suf.data.isSuffixOf s.data

/-- Split on a single separator character, keeping empty pieces
(`str.split(sep)` / `String.splitOn` for a one-character separator). -/
def splitOnChar (sep : Char) : List Char → List Char → List String
  | [], acc => [String.mk acc.reverse]
  | c :: cs, acc =>
      if c = sep then String.mk acc.reverse :: splitOnChar sep cs []
      else splitOnChar sep cs (c :: acc)

/-! ## `posixpath` primitives used by the handlers -/

/-- `os.path.isabs` on POSIX. -/
def pyIsAbs (p : String) : Bool := pyStartsWith p "/"

/-- Two-argument `os.path.join` on POSIX. -/
def pyJoin (a b : String) : String :=
  if pyIsAbs b then b
  else if a = "" ∨ pyEndsWith a "/" then a ++ b
  else a ++ "/" ++ b

/-- The component loop of `posixpath.normpath`: drops `""` and `"."`,
resolves `".."` against the accumulated components. -/
def normLoop (initialSlashes : Nat) : List String → List String → List String
  | acc, [] => acc
  | acc, comp :: rest =>
      if comp = "" ∨ comp = "." then normLoop initialSlashes acc rest
      else if comp ≠ ".." ∨ (initialSlashes = 0 ∧ acc = []) ∨ acc.getLast? = some ".." then
        normLoop initialSlashes (acc ++ [comp]) rest
      else if acc ≠ [] then normLoop initialSlashes acc.dropLast rest
      else normLoop initialSlashes acc rest

/-- `posixpath.normpath`. -/
def pyNormpath (p : String) : String :=
  if p = "" then "." else
  let initialSlashes : Nat :=
    if pyStartsWith p "/" = true then
      if pyStartsWith p "//" = true ∧ ¬ pyStartsWith p "///" = true then 2 else 1
    else 0
  let comps := normLoop initialSlashes [] (splitOnChar '/' p.data [])
  let res := String.join (List.replicate initialSlashes "/") ++ String.intercalate "/" comps
  if res = "" then "." else res

/-- `os.path.abspath`, `cwd` standing for `os.getcwd()`. -/
def pyAbspath (cwd p : String) : String :=
  pyNormpath (if pyIsAbs p then p else pyJoin cwd p)

/-- `os.path.basename` on POSIX (`posixpath.split` tail). -/
def pyBasename (p : String) : String :=
  String.mk ((p.data.reverse.takeWhile (fun c => c ≠ '/')).reverse)

/-! ## Filesystem model

A filesystem is an association list from canonical absolute paths —
component lists with no `""`, `"."` or `".."` — to nodes.  The root `[]`
always exists and is a directory.  Reads (`os.path.exists`, `os.path.isdir`,
`os.listdir`, `open`) go through a kernel-style walk that resolves `"."`
and `".."` against existing directories; creation operations
(`os.makedirs`, `Path.touch`, copies) address the string-normalized
components, matching the syscall behaviour in the absence of symlinks. -/

/-- A filesystem node: a directory, or a file with its text content. -/
inductive FsNode where
  | dir : FsNode
  | file : String → FsNode
deriving DecidableEq

/-- Filesystem: association list keyed by canonical component lists. -/
abbrev FileSys := List (List String × FsNode)

/-- Node at a canonical key; the root `[]` is always a directory. -/
def lookupFs (fs : FileSys) (k : List String) : Option FsNode :=
  if k = [] then some FsNode.dir else fs.lookup k

/-- Names of the immediate children of the directory keyed `k`
(`os.listdir` on the node `k`). -/
def childNames (fs : FileSys) (k : List String) : List String :=
  fs.filterMap fun e =>
    if e.1.dropLast = k ∧ e.1.length = k.length + 1 then e.1.getLast? else none

/-- Delete one entry (`os.remove` / `os.rmdir` after the checks). -/
def fsDeleteKey (fs : FileSys) (k : List String) : FileSys :=
  fs.filter fun e => !(e.1 == k)

/-- Delete an entry and everything below it (`shutil.rmtree`). -/
def fsDeleteTree (fs : FileSys) (k : List String) : FileSys :=
  fs.filter fun e => !(k.isPrefixOf e.1)

/-- Insert or overwrite one entry. -/
def fsInsert (fs : FileSys) (k : List String) (n : FsNode) : FileSys :=
  (k, n) :: fs.filter fun e => !(e.1 == k)

/-- Create every missing prefix of `comps` below `pre` as a directory
(the recursion of `os.makedirs`). -/
def fsAddPrefixes (fs : FileSys) (pre : List String) : List String → FileSys
  | [] => fs
  | c :: rest =>
      let key := pre ++ [c]
      let fs' := if (lookupFs fs key).isSome then fs else (key, FsNode.dir) :: fs
      fsAddPrefixes fs' key rest

/-- `os.makedirs(path)` given the normalized components of `path`. -/
def fsMakeDirs (fs : FileSys) (comps : List String) : FileSys :=
  fsAddPrefixes fs [] comps

/-- Kernel path walk: consume raw components from the node `cur`,
requiring every traversed node to be an existing directory; `""` and `"."`
are skipped, `".."` steps to the parent (the root is its own parent). -/
def walkFrom (fs : FileSys) : List String → List String → Option (List String)
  | cur, [] => some cur
  | cur, c :: rest =>
      match lookupFs fs cur with
      | some FsNode.dir =>
          if c = "" ∨ c = "." then walkFrom fs cur rest
          else if c = ".." then walkFrom fs cur.dropLast rest
          else walkFrom fs (cur ++ [c]) rest
      | _ => none

/-- Resolve an absolute path string to its canonical key and node. -/
def statAbs (fs : FileSys) (p : String) : Option (List String × FsNode) :=
  if pyIsAbs p then
    match walkFrom fs [] (splitOnChar '/' p.data []) with
    | some k => (lookupFs fs k).map fun n => (k, n)
    | none => none
  else none

/-- Render a canonical key back to an absolute path string. -/
def keyPath (k : List String) : String := "/" ++ String.intercalate "/" k

/-! ## Session state and external world -/

/-- Outcome of `subprocess.run(line, shell=True, capture_output=True,
text=True, cwd=..., timeout=30)`: normal completion with exit code,
captured stdout/stderr and the filesystem after the process ran; a
`subprocess.TimeoutExpired`; or a launch failure (any other exception,
with its `str(e)`). -/
inductive SubprocessOutcome where
  | completed : Int → String → String → FileSys → SubprocessOutcome
  | timedOut : FileSys → SubprocessOutcome
  | failed : String → SubprocessOutcome
deriving DecidableEq

/-- External collaborators, fixed for the lifetime of the engine:
`os.path.expanduser("~")`, `getpass.getuser()`, the `datetime` clock
rendering, the `psutil` snapshots rendered by `ps` and `top`, and the
host command interpreter used by `subprocess.run`. -/
structure World where
  home : String
  user : String
  dateStr : String
  psTable : String
  sysInfo : String
  runShell : String → String → FileSys → SubprocessOutcome

/-- The mutable state a command executes against: the filesystem, the
session's `current_directory`, the process working directory
(`os.getcwd()`, kept in sync by `os.chdir` in `cd`), and the read-only
world. -/
structure ShellState where
  fs : FileSys
  currentDirectory : String
  processCwd : String
  world : World

/-- Replace the filesystem, the only state component handlers other than
`cd` ever mutate. -/
def setFs (st : ShellState) (fs : FileSys) : ShellState := { st with fs := fs }

/-- `CommandHandler.__init__`: `current_directory = os.getcwd()`. -/
def initState (fs : FileSys) (cwd : String) (w : World) : ShellState :=
  { fs := fs, currentDirectory := cwd, processCwd := cwd, world := w }

/-- Relative paths given to `os.*` calls resolve against the process
working directory. -/
def absOf (cwd p : String) : String := if pyIsAbs p then p else pyJoin cwd p

/-- `os.stat`-style resolution of a path string in state `st`. -/
def osStat (st : ShellState) (p : String) : Option (List String × FsNode) :=
  statAbs st.fs (absOf st.processCwd p)

/-- `os.path.exists`. -/
def osExists (st : ShellState) (p : String) : Bool := (osStat st p).isSome

/-- `os.path.isdir`. -/
def osIsDir (st : ShellState) (p : String) : Bool :=
  match osStat st p with
  | some (_, FsNode.dir) => true
  | _ => false

/-- `os.path.isfile`. -/
def osIsFile (st : ShellState) (p : String) : Bool :=
  match osStat st p with
  | some (_, FsNode.file _) => true
  | _ => false

/-- `os.listdir` on a path already checked to be a directory. -/
def osChildren (st : ShellState) (p : String) : List String :=
  match osStat st p with
  | some (k, _) => childNames st.fs k
  | none => []

/-- Content of the file at `p` (`open(p).read()`, lossy decoding being
the identity on the modelled text). -/
def osReadFile (st : ShellState) (p : String) : String :=
  match osStat st p with
  | some (_, FsNode.file content) => content
  | _ => ""

/-- Normalized components of a path string, for creation operations. -/
def normComps (st : ShellState) (p : String) : List String :=
  (splitOnChar '/' (pyAbspath st.processCwd p).data []).filter (fun c => !(c == ""))

/-- `CommandHandler._resolve_path`: absolute arguments pass through,
relative ones are joined onto `self.current_directory`. -/
def resolvePath (st : ShellState) (p : String) : String :=
  if pyIsAbs p then p else pyJoin st.currentDirectory p

/-! ## The Python exception channel

A handler body computes in `Except (String × ShellState) α`: an error is
an uncaught Python exception carrying `str(e)` and the state at raise
time (mutations made before the raise persist, as in Python). -/

/-- Result record every operation returns
(`{"success": ..., "output": ..., "error": ...}`). -/
structure CmdResult where
  success : Bool
  output : String
  error : String
deriving DecidableEq

/-- What a handler body yields: a result and the updated state, or an
uncaught exception. -/
abbrev HandlerOut := Except (String × ShellState) (CmdResult × ShellState)

/-- A registered handler after its own `try`/`except` (each handler in
the source returns a result dict for every input). -/
abbrev PureHandler := List String → ShellState → CmdResult × ShellState

/-- A handler as seen by the dispatch boundary: it may raise. -/
abbrev ExcHandler := List String → ShellState → HandlerOut

/-- The `except Exception as e: return {"success": False, "output": "",
"error": str(e)}` wrapper every filesystem handler ends with. -/
def runCaught (body : ShellState → HandlerOut) (st : ShellState) :
    CmdResult × ShellState :=
  match body st with
  | .ok p => p
  | .error (e, st') => (⟨false, "", e⟩, st')

/-- `os.remove(path)`: unlink a file, raising `FileNotFoundError` on a
missing path and `IsADirectoryError` on a directory. -/
def osRemoveE (st : ShellState) (p : String) : Except (String × ShellState) ShellState :=
  match osStat st p with
  | some (k, FsNode.file _) => .ok (setFs st (fsDeleteKey st.fs k))
  | some (_, FsNode.dir) => .error ("[Errno 21] Is a directory: '" ++ p ++ "'", st)
  | none => .error ("[Errno 2] No such file or directory: '" ++ p ++ "'", st)

/-- `os.makedirs(path, exist_ok=False)`: raise if the target already
exists, otherwise create it and any missing parents. -/
def osMakeDirsE (st : ShellState) (p : String) : Except (String × ShellState) ShellState :=
  let comps := normComps st p
  if (lookupFs st.fs comps).isSome then
    .error ("[Errno 17] File exists: '" ++ p ++ "'", st)
  else .ok (setFs st (fsMakeDirs st.fs comps))

/-- `Path(path).touch()`: existing targets are left as they are (only
timestamps move); otherwise an empty file is created, raising
`FileNotFoundError` when the parent directory is missing. -/
def osTouchE (st : ShellState) (p : String) : Except (String × ShellState) ShellState :=
  match osStat st p with
  | some _ => .ok st
  | none =>
      let comps := normComps st p
      match lookupFs st.fs comps.dropLast with
      | some FsNode.dir => .ok (setFs st (fsInsert st.fs comps (FsNode.file "")))
      | _ => .error ("[Errno 2] No such file or directory: '" ++ p ++ "'", st)

/-! ## Small helpers shared by handlers -/

/-- `os.path.getsize` (byte size of the file's content). -/
def osGetSize (st : ShellState) (p : String) : Nat :=
  match osStat st p with
  | some (_, FsNode.file c) => c.utf8ByteSize
  | _ => 0

/-- `shutil.rmtree` on a path already checked to be a directory. -/
def osRmtree (st : ShellState) (p : String) : ShellState :=
  match osStat st p with
  | some (k, _) => setFs st (fsDeleteTree st.fs k)
  | none => st

/-- Ascending insertion, for `sorted(entries)`. -/
def insertSorted (x : String) : List String → List String
  | [] => [x]
  | y :: ys => if y < x then y :: insertSorted x ys else x :: y :: ys

/-- Python `sorted` on a list of strings. -/
def sortStrings : List String → List String
  | [] => []
  | x :: xs => insertSorted x (sortStrings xs)

/-! ## Built-in handlers (one per method of `CommandHandler`) -/

/-- Body of `_list_directory` (`ls`/`dir`).  The `PermissionError` branch
is unreachable in the permission-free model. -/
def listDirBody (args : List String) (st : ShellState) : HandlerOut :=
  let path0 := match args with | [] => st.currentDirectory | a :: _ => a
  let path := resolvePath st path0
  if ¬ osExists st path then
    .ok (⟨false, "", "Path '" ++ path ++ "' does not exist"⟩, st)
  else if ¬ osIsDir st path then
    .ok (⟨false, "", "'" ++ path ++ "' is not a directory"⟩, st)
  else
    let entries := sortStrings (osChildren st path)
    let items := entries.map fun entry =>
      let fullPath := pyJoin path entry
      if osIsDir st fullPath then "[DIR]  " ++ entry
      else "[FILE] " ++ entry ++ " (" ++ toString (osGetSize st fullPath) ++ " bytes)"
    let output := if items = [] then "Directory is empty" else String.intercalate "\n" items
    .ok (⟨true, output, ""⟩, st)

/-- `_list_directory`. -/
def listDirectory : PureHandler := fun args st => runCaught (listDirBody args) st

/-- `_print_working_directory` (`pwd`), no `try` block in the source. -/
def printWorkingDirectory : PureHandler := fun _ st =>
  (⟨true, st.currentDirectory, ""⟩, st)

/-- The `cd` target: `args[0]` when present, otherwise
`os.path.expanduser("~")` (both branches of the `platform.system()` test
compute the same value), passed through `_resolve_path`. -/
def cdTarget (args : List String) (st : ShellState) : String :=
  resolvePath st (match args with | [] => st.world.home | a :: _ => a)

/-- Body of `_change_directory` (`cd`): the target is resolved and
validated, then `self.current_directory` is set to its `os.path.abspath`
and `os.chdir` propagates the same value to the process working
directory. -/
def changeDirBody (args : List String) (st : ShellState) : HandlerOut :=
  if ¬ osExists st (cdTarget args st) then
    .ok (⟨false, "", "Directory '" ++ cdTarget args st ++ "' does not exist"⟩, st)
  else if ¬ osIsDir st (cdTarget args st) then
    .ok (⟨false, "", "'" ++ cdTarget args st ++ "' is not a directory"⟩, st)
  else
    .ok (⟨true, "Changed directory to: " ++ pyAbspath st.processCwd (cdTarget args st), ""⟩,
      { st with currentDirectory := pyAbspath st.processCwd (cdTarget args st),
                processCwd := pyAbspath st.processCwd (cdTarget args st) })

/-- `_change_directory`. -/
def changeDirectory : PureHandler := fun args st => runCaught (changeDirBody args) st

/-- The `for dirname in args` loop of `_make_directory`; `some r` is an
early `return` with result `r`. -/
def mkdirLoop : List String → ShellState →
    Except (String × ShellState) (Option CmdResult × ShellState)
  | [], st => .ok (none, st)
  | d :: rest, st =>
      let path := resolvePath st d
      if osExists st path then
        .ok (some ⟨false, "", "Directory '" ++ path ++ "' already exists"⟩, st)
      else
        match osMakeDirsE st path with
        | .ok st' => mkdirLoop rest st'
        | .error e => .error e

/-- `_make_directory` (`mkdir`). -/
def makeDirectory : PureHandler := fun args st => runCaught (fun s =>
  if args = [] then .ok (⟨false, "", "mkdir: missing directory name"⟩, s)
  else
    match mkdirLoop args s with
    | .ok (some r, s') => .ok (r, s')
    | .ok (none, s') =>
        .ok (⟨true, "Created directory(s): " ++ String.intercalate ", " args, ""⟩, s')
    | .error e => .error e) st

/-- The `for dirname in args` loop of `_remove_directory`: each target
must exist, be a directory and be empty before `os.rmdir`. -/
def rmdirLoop : List String → ShellState →
    Except (String × ShellState) (Option CmdResult × ShellState)
  | [], st => .ok (none, st)
  | d :: rest, st =>
      let path := resolvePath st d
      match osStat st path with
      | none => .ok (some ⟨false, "", "Directory '" ++ path ++ "' does not exist"⟩, st)
      | some (_, FsNode.file _) =>
          .ok (some ⟨false, "", "'" ++ path ++ "' is not a directory"⟩, st)
      | some (k, FsNode.dir) =>
          if childNames st.fs k ≠ [] then
            .ok (some ⟨false, "",
              "Directory '" ++ path ++ "' is not empty. Use 'rm -r' to remove non-empty directories"⟩, st)
          else rmdirLoop rest (setFs st (fsDeleteKey st.fs k))

/-- `_remove_directory` (`rmdir`). -/
def removeDirectory : PureHandler := fun args st => runCaught (fun s =>
  if args = [] then .ok (⟨false, "", "rmdir: missing directory name"⟩, s)
  else
    match rmdirLoop args s with
    | .ok (some r, s') => .ok (r, s')
    | .ok (none, s') =>
        .ok (⟨true, "Removed directory(s): " ++ String.intercalate ", " args, ""⟩, s')
    | .error e => .error e) st

/-- The `for filename in files` loop of `_remove_file`, accumulating the
`removed_items` summary.  Note the source gap: with `force` set and a
missing target the early error return is skipped but `os.remove` is still
reached and raises `FileNotFoundError`. -/
def rmLoop (recursive force : Bool) : List String → List String → ShellState →
    Except (String × ShellState) (Option CmdResult × List String × ShellState)
  | [], acc, st => .ok (none, acc, st)
  | f :: rest, acc, st =>
      let path := resolvePath st f
      if ¬ osExists st path ∧ ¬ force then
        .ok (some ⟨false, "", "File/directory '" ++ path ++ "' does not exist"⟩, acc, st)
      else if osIsDir st path then
        if recursive then
          rmLoop recursive force rest (acc ++ ["directory '" ++ f ++ "' and its contents"])
            (osRmtree st path)
        else
          .ok (some ⟨false, "", "'" ++ path ++ "' is a directory. Use -r flag to remove directories"⟩,
            acc, st)
      else
        match osRemoveE st path with
        | .ok st' => rmLoop recursive force rest (acc ++ ["file '" ++ f ++ "'"]) st'
        | .error e => .error e

/-- `_remove_file` (`rm`/`del`). -/
def removeFile : PureHandler := fun args st => runCaught (fun s =>
  if args = [] then .ok (⟨false, "", "rm: missing file/directory name"⟩, s)
  else
    let recursive := args.contains "-r" || args.contains "-rf"
    let force := args.contains "-f" || args.contains "-rf"
    let files := args.filter fun a => !(pyStartsWith a "-")
    if files = [] then .ok (⟨false, "", "rm: missing file/directory name"⟩, s)
    else
      match rmLoop recursive force files [] s with
      | .ok (some r, _, s') => .ok (r, s')
      | .ok (none, acc, s') => .ok (⟨true, "Removed: " ++ String.intercalate ", " acc, ""⟩, s')
      | .error e => .error e) st

/-- The `for filename in args` loop of `_create_file`. -/
def touchLoop : List String → ShellState → Except (String × ShellState) ShellState
  | [], st => .ok st
  | f :: rest, st =>
      match osTouchE st (resolvePath st f) with
      | .ok st' => touchLoop rest st'
      | .error e => .error e

/-- `_create_file` (`touch`). -/
def createFile : PureHandler := fun args st => runCaught (fun s =>
  if args = [] then .ok (⟨false, "", "touch: missing filename"⟩, s)
  else
    match touchLoop args s with
    | .ok s' => .ok (⟨true, "Created file(s): " ++ String.intercalate ", " args, ""⟩, s')
    | .error e => .error e) st

/-- `_show_file_content` (`cat`/`type`): reads exactly the first
argument. -/
def showFileContent : PureHandler := fun args st => runCaught (fun s =>
  match args with
  | [] => .ok (⟨false, "", "cat: missing filename"⟩, s)
  | filename :: _ =>
      let path := resolvePath s filename
      if ¬ osExists s path then .ok (⟨false, "", "File '" ++ path ++ "' does not exist"⟩, s)
      else if osIsDir s path then .ok (⟨false, "", "'" ++ path ++ "' is a directory"⟩, s)
      else .ok (⟨true, osReadFile s path, ""⟩, s)) st

/-- `_clear_screen` (`clear`/`cls`): the screen-clear sentinel. -/
def clearScreen : PureHandler := fun _ st => (⟨true, "\x1b[2J\x1b[H", ""⟩, st)

/-- The static usage text of `_show_help`, after `help_text.strip()`. -/
def helpText : String :=
"Available Commands:
==================
File Operations:
  ls, dir          - List directory contents
  pwd             - Print working directory
  cd <path>       - Change directory
  mkdir <name>    - Create directory
  rmdir <name>    - Remove empty directory
  rm <file>       - Remove file (use -r for directories, -f to force)
  touch <file>    - Create empty file
  cat <file>      - Show file content
  cp <src> <dst>  - Copy file
  mv <src> <dst>  - Move/rename file

System Commands:
  ps              - Show running processes
  top             - Show system information
  whoami          - Show current user
  date            - Show current date/time
  clear, cls      - Clear screen

Utilities:
  echo <text>     - Print text
  find <pattern>  - Find files matching pattern
  grep <pattern>  - Search for text in files
  help            - Show this help
  exit, quit      - Exit terminal

Examples:
  ls -l           - List with details
  cd ..           - Go to parent directory
  mkdir test      - Create 'test' directory
  rm -rf folder   - Remove folder and contents"

/-- `_show_help` (`help`). -/
def showHelp : PureHandler := fun _ st => (⟨true, helpText, ""⟩, st)

/-- `_show_processes` (`ps`): `psutil` is an external collaborator
(spec §1 excludes it from the core), modelled as the oracle `psTable`
holding the rendered header-plus-rows table. -/
def showProcesses : PureHandler := fun _ st =>
  runCaught (fun s => .ok (⟨true, s.world.psTable, ""⟩, s)) st

/-- `_whoami`: `getpass.getuser()` modelled as the `user` oracle. -/
def whoami : PureHandler := fun _ st =>
  runCaught (fun s => .ok (⟨true, s.world.user, ""⟩, s)) st

/-- `_show_date`: `datetime.now().strftime(...)` modelled as the
`dateStr` oracle. -/
def showDate : PureHandler := fun _ st =>
  runCaught (fun s => .ok (⟨true, s.world.dateStr, ""⟩, s)) st

/-- `_echo` (`echo`): `" ".join(args)`, no `try` block in the source. -/
def echo : PureHandler := fun args st =>
  (⟨true, String.intercalate " " args, ""⟩, st)

/-- `shutil.copytree(src, dst)`: create `dst` (raising `FileExistsError`
if it already exists) and re-root every entry strictly below the source
directory at `dst`. -/
def osCopyTreeE (st : ShellState) (src dst : String) :
    Except (String × ShellState) ShellState :=
  match osStat st src with
  | none => .error ("[Errno 2] No such file or directory: '" ++ src ++ "'", st)
  | some (srcKey, _) =>
      match osMakeDirsE st dst with
      | .error e => .error e
      | .ok st' =>
          let dstK := normComps st dst
          let copies := st.fs.filterMap fun e =>
            if srcKey.isPrefixOf e.1 ∧ e.1 ≠ srcKey then
              some (dstK ++ e.1.drop srcKey.length, e.2)
            else none
          .ok (setFs st' (copies ++ st'.fs))

/-- `shutil.copy2(src, dst)`: a destination that is a directory receives
the file under the source's basename; the destination's parent must
exist. -/
def osCopy2E (st : ShellState) (src dst : String) :
    Except (String × ShellState) ShellState :=
  let dstFinal := if osIsDir st dst then pyJoin dst (pyBasename src) else dst
  match osStat st src with
  | some (_, FsNode.file content) =>
      let k := normComps st dstFinal
      match lookupFs st.fs k.dropLast with
      | some FsNode.dir => .ok (setFs st (fsInsert st.fs k (FsNode.file content)))
      | _ => .error ("[Errno 2] No such file or directory: '" ++ dstFinal ++ "'", st)
  | _ => .error ("[Errno 2] No such file or directory: '" ++ src ++ "'", st)

/-- `shutil.move(src, dst)`: into an existing directory the source moves
under its basename, raising if that destination already exists;
otherwise a rename of the whole subtree. -/
def osMoveE (st : ShellState) (src dst : String) :
    Except (String × ShellState) ShellState :=
  let realDst := if osIsDir st dst then pyJoin dst (pyBasename src) else dst
  if osIsDir st dst ∧ osExists st realDst then
    .error ("Destination path '" ++ realDst ++ "' already exists", st)
  else
    match osStat st src with
    | some (srcK, _) =>
        let dstK := normComps st realDst
        match lookupFs st.fs dstK.dropLast with
        | some FsNode.dir =>
            let moved := st.fs.filterMap fun e =>
              if srcK.isPrefixOf e.1 then some (dstK ++ e.1.drop srcK.length, e.2) else none
            .ok (setFs st (moved ++ fsDeleteTree st.fs srcK))
        | _ => .error ("[Errno 2] No such file or directory: '" ++ realDst ++ "'", st)
    | none => .error ("[Errno 2] No such file or directory: '" ++ src ++ "'", st)

/-- `_copy_file` (`cp`/`copy`). -/
def copyFile : PureHandler := fun args st => runCaught (fun s =>
  match args with
  | a0 :: a1 :: _ =>
      let src := resolvePath s a0
      let dst := resolvePath s a1
      if ¬ osExists s src then .ok (⟨false, "", "Source '" ++ src ++ "' does not exist"⟩, s)
      else
        let op := if osIsDir s src then osCopyTreeE s src dst else osCopy2E s src dst
        match op with
        | .ok s' => .ok (⟨true, "Copied '" ++ a0 ++ "' to '" ++ a1 ++ "'", ""⟩, s')
        | .error e => .error e
  | _ => .ok (⟨false, "", "cp: missing source or destination"⟩, s)) st

/-- `_move_file` (`mv`/`move`). -/
def moveFile : PureHandler := fun args st => runCaught (fun s =>
  match args with
  | a0 :: a1 :: _ =>
      let src := resolvePath s a0
      let dst := resolvePath s a1
      if ¬ osExists s src then .ok (⟨false, "", "Source '" ++ src ++ "' does not exist"⟩, s)
      else
        match osMoveE s src dst with
        | .ok s' => .ok (⟨true, "Moved '" ++ a0 ++ "' to '" ++ a1 ++ "'", ""⟩, s')
        | .error e => .error e
  | _ => .ok (⟨false, "", "mv: missing source or destination"⟩, s)) st

/-- `_find_files` (`find`): `os.walk` over the search root collecting
files whose name contains the pattern case-insensitively; a missing root
walks nothing. -/
def findFiles : PureHandler := fun args st => runCaught (fun s =>
  match args with
  | [] => .ok (⟨false, "", "find: missing pattern"⟩, s)
  | pattern :: rest =>
      let searchPath0 := match rest with | [] => s.currentDirectory | p :: _ => p
      let searchPath := resolvePath s searchPath0
      let base := match osStat s searchPath with
        | some (k, FsNode.dir) => some k
        | _ => none
      let found := match base with
        | none => []
        | some k => s.fs.filterMap fun e =>
            match e.2 with
            | FsNode.file _ =>
                if k.isPrefixOf e.1 ∧
                    strContains (pyLower (e.1.getLastD "")) (pyLower pattern) then
                  some (keyPath e.1)
                else none
            | FsNode.dir => none
      if found = [] then .ok (⟨true, "No files found matching pattern", ""⟩, s)
      else .ok (⟨true, String.intercalate "\n" found, ""⟩, s)) st

/-- `fnmatch.fnmatch` restricted to the `*` and `?` wildcards (character
classes do not occur in the repository's usage). -/
def fnmatchChars : List Char → List Char → Bool
  | [], [] => true
  | [], _ :: _ => false
  | '*' :: ps, s =>
      fnmatchChars ps s ||
        (match s with
         | [] => false
         | _ :: ss => fnmatchChars ('*' :: ps) ss)
  | '?' :: ps, s =>
      (match s with
       | [] => false
       | _ :: ss => fnmatchChars ps ss)
  | p :: ps, s =>
      (match s with
       | [] => false
       | c :: ss => p = c && fnmatchChars ps ss)
termination_by p s => (p.length, s.length)

/-- Componentwise wildcard match of a glob pattern against a canonical
key. -/
def globMatchKey (patComps k : List String) : Bool :=
  decide (patComps.length = k.length) &&
    (patComps.zip k).all fun pc => fnmatchChars pc.1.data pc.2.data

/-- `glob.glob` on an absolute pattern: the existing paths matching. -/
def osGlob (st : ShellState) (p : String) : List String :=
  let comps := (splitOnChar '/' (absOf st.processCwd p).data []).filter fun c => !(c == "")
  st.fs.filterMap fun e => if globMatchKey comps e.1 then some (keyPath e.1) else none

/-- Iterating a text file: lines without their terminators, as Python's
line iteration yields them (no empty final line after a trailing
newline). -/
def pyLines (s : String) : List String :=
  if s = "" then []
  else
    let parts := splitOnChar '\n' s.data []
    if parts.getLast? = some "" then parts.dropLast else parts

/-- The `for line_num, line in enumerate(f, 1)` scan of `_grep_files`. -/
def grepLines (filepath pattern : String) : Nat → List String → List String
  | _, [] => []
  | n, line :: rest =>
      (if strContains (pyLower line) (pyLower pattern) then
        [filepath ++ ":" ++ toString n ++ ":" ++ pyStrip line]
      else []) ++ grepLines filepath pattern (n + 1) rest

/-- `_grep_files` (`grep`): case-insensitive substring scan over the
named files (glob patterns expanded when the argument contains `*`,
default `["*"]`); unreadable files are skipped (none exist in the
model). -/
def grepFiles : PureHandler := fun args st => runCaught (fun s =>
  match args with
  | [] => .ok (⟨false, "", "grep: missing pattern"⟩, s)
  | pattern :: restArgs =>
      let filePats := if restArgs = [] then ["*"] else restArgs
      let found := (filePats.map fun fp =>
        let filePath := resolvePath s fp
        let fileList :=
          if strContains fp "*" then osGlob s filePath
          else if osExists s filePath then [filePath] else []
        (fileList.map fun fpath =>
          if osIsFile s fpath then grepLines fpath pattern 1 (pyLines (osReadFile s fpath))
          else []).flatten).flatten
      if found = [] then .ok (⟨true, "No matches found", ""⟩, s)
      else .ok (⟨true, String.intercalate "\n" found, ""⟩, s)) st

/-- `_show_system_info` (`top`): the `psutil` aggregate snapshot is the
`sysInfo` oracle (excluded from the core by spec §1). -/
def showSystemInfo : PureHandler := fun _ st =>
  runCaught (fun s => .ok (⟨true, s.world.sysInfo, ""⟩, s)) st

/-- `_exit` (`exit`/`quit`): the terminate-the-session sentinel. -/
def exitTerminal : PureHandler := fun _ st => (⟨true, "exit", ""⟩, st)

/-- `_execute_system_command`: run the original line through the host
interpreter with `cwd=self.current_directory`; `success` is
`returncode == 0`, stderr passes through (`result.stderr if
result.stderr else ""`). -/
def executeSystemCommand (commandLine : String) (st : ShellState) :
    CmdResult × ShellState :=
  match st.world.runShell commandLine st.currentDirectory st.fs with
  | .completed rc out err fs' =>
      (⟨rc == 0, out, if err ≠ "" then err else ""⟩, setFs st fs')
  | .timedOut fs' =>
      (⟨false, "", "Command timed out after 30 seconds"⟩, setFs st fs')
  | .failed msg =>
      (⟨false, "", "Command not found: " ++ msg⟩, st)

/-! ## Registry and dispatch -/

/-- `self.supported_commands`, the immutable name→handler map built in
`__init__`. -/
def supportedCommands (name : String) : Option PureHandler :=
  match name with
  | "ls" => some listDirectory
  | "dir" => some listDirectory
  | "pwd" => some printWorkingDirectory
  | "cd" => some changeDirectory
  | "mkdir" => some makeDirectory
  | "rmdir" => some removeDirectory
  | "rm" => some removeFile
  | "del" => some removeFile
  | "touch" => some createFile
  | "cat" => some showFileContent
  | "type" => some showFileContent
  | "clear" => some clearScreen
  | "cls" => some clearScreen
  | "help" => some showHelp
  | "ps" => some showProcesses
  | "whoami" => some whoami
  | "date" => some showDate
  | "echo" => some echo
  | "cp" => some copyFile
  | "copy" => some copyFile
  | "mv" => some moveFile
  | "move" => some moveFile
  | "find" => some findFiles
  | "grep" => some grepFiles
  | "top" => some showSystemInfo
  | "exit" => some exitTerminal
  | "quit" => some exitTerminal
  | _ => none

/-- `_parse_command`: `command_line.strip().split()`. -/
def parseCommand (commandLine : String) : List String :=
  pySplit (pyStrip commandLine)

/-- A registered handler seen through the dispatch boundary: the source
handlers return a result dict on every input, so lifting into the
exception channel never raises. -/
def liftHandler (h : PureHandler) : ExcHandler := fun args st => .ok (h args st)

/-- The registry as the dispatcher sees it. -/
def liftedRegistry (name : String) : Option ExcHandler :=
  (supportedCommands name).map liftHandler

/-- Registry lookup and invocation (`execute_command` lines 69-74):
`parts[0].lower()` selects a handler, unknown names fall through to
`_execute_system_command` with the original, untokenized line. -/
def dispatchWith (reg : String → Option ExcHandler) (commandLine : String)
    (cmd : String) (args : List String) (st : ShellState) : HandlerOut :=
  match reg (pyLower cmd) with
  | some h => h args st
  | none => .ok (executeSystemCommand commandLine st)

/-- The `try` body of `execute_command`, generic in the registry exactly
as the source is generic in `self.supported_commands`: empty input
short-circuits; otherwise the line is tokenized (an empty token list
would raise `IndexError` at `parts[0]`) and dispatched. -/
def executeCoreWith (reg : String → Option ExcHandler) (commandLine : String)
    (st : ShellState) : HandlerOut :=
  if pyStrip commandLine = "" then .ok (⟨true, "", ""⟩, st)
  else
    match parseCommand commandLine with
    | [] => .error ("list index out of range", st)
    | cmd :: args => dispatchWith reg commandLine cmd args st

/-- `execute_command` around an arbitrary registry: the body's outcome,
with any escaping exception converted at this boundary into
`{success: False, output: "", error: "Error executing command: <msg>"}`. -/
def executeWith (reg : String → Option ExcHandler) (commandLine : String)
    (st : ShellState) : CmdResult × ShellState :=
  match executeCoreWith reg commandLine st with
  | .ok p => p
  | .error (e, st') => (⟨false, "", "Error executing command: " ++ e⟩, st')

/-- `CommandHandler.execute_command` with the real registry. -/
def executeCommand (commandLine : String) (st : ShellState) :
    CmdResult × ShellState :=
  executeWith liftedRegistry commandLine st

/-! ## Helper lemmas -/

/-- The state an exception-channel value ends in, for bodies whose ok
payload is result-then-state. -/
def exStH : HandlerOut → ShellState
  | .ok p => p.2
  | .error e => e.2

theorem splitWSAux_ne_nil_of_acc (l : List Char) :
    ∀ acc, acc ≠ [] → splitWSAux l acc ≠ [] := by
  induction l with
  | nil => intro acc h; simp [splitWSAux, h]
  | cons c cs ih =>
      intro acc h
      unfold splitWSAux
      by_cases hws : pyWS c = true
      · simp [hws, h]
      · rw [if_neg (by simpa using hws)]
        exact ih (c :: acc) (by simp)

theorem splitWSAux_ne_nil_of_mem (l : List Char) :
    ∀ acc, (∃ c ∈ l, pyWS c = false) → splitWSAux l acc ≠ [] := by
  induction l with
  | nil => intro acc h; simp at h
  | cons c cs ih =>
      intro acc h
      unfold splitWSAux
      by_cases hws : pyWS c = true
      · have hcs : ∃ d ∈ cs, pyWS d = false := by
          obtain ⟨d, hd, hdf⟩ := h
          rcases List.mem_cons.mp hd with rfl | hmem
          · exact absurd hws (by simp [hdf])
          · exact ⟨d, hmem, hdf⟩
        rw [if_pos (by simpa using hws)]
        by_cases hacc : acc = []
        · simp only [hacc, if_pos rfl]
          exact ih [] hcs
        · rw [if_neg hacc]
          simp
      · rw [if_neg (by simpa using hws)]
        exact splitWSAux_ne_nil_of_acc cs (c :: acc) (by simp)

theorem exists_not_ws_of_dropWhile_ne_nil (l : List Char) :
    l.dropWhile pyWS ≠ [] → ∃ c ∈ l.dropWhile pyWS, pyWS c = false := by
  induction l with
  | nil => simp
  | cons c cs ih =>
      intro h
      rw [List.dropWhile_cons] at h ⊢
      by_cases hc : pyWS c = true
      · rw [if_pos hc] at h ⊢
        exact ih h
      · rw [if_neg hc] at h ⊢
        exact ⟨c, by simp, by simpa using hc⟩

theorem exists_not_ws_of_stripChars_ne_nil (l : List Char) :
    stripChars l ≠ [] → ∃ c ∈ stripChars l, pyWS c = false := by
  intro h
  unfold stripChars at h ⊢
  have h2 : ((l.dropWhile pyWS).reverse.dropWhile pyWS) ≠ [] := by
    intro hz; exact h (by simp [hz])
  obtain ⟨c, hc, hcf⟩ := exists_not_ws_of_dropWhile_ne_nil _ h2
  exact ⟨c, by simpa using hc, hcf⟩

theorem stripChars_ne_nil_of_strip (line : String) (h : pyStrip line ≠ "") :
    stripChars line.data ≠ [] := by
  intro hz
  exact h (by simp [pyStrip, hz])

theorem parseCommand_ne_nil (line : String) (h : pyStrip line ≠ "") :
    parseCommand line ≠ [] := by
  have h1 := stripChars_ne_nil_of_strip line h
  have h2 := exists_not_ws_of_stripChars_ne_nil _ h1
  have h3 := splitWSAux_ne_nil_of_mem (stripChars line.data) [] h2
  unfold parseCommand pySplit
  simpa [pyStrip] using h3

theorem strip_ne_of_parse_cons (line : String) (cmd : String) (args : List String)
    (h : parseCommand line = cmd :: args) : pyStrip line ≠ "" := by
  intro hz
  have : parseCommand line = [] := by
    unfold parseCommand pySplit
    have : stripChars line.data = [] := by
      have := congrArg String.data hz
      simpa [pyStrip] using this
    simp [pyStrip, this, splitWSAux]
  rw [this] at h
  exact List.noConfusion h

/-- Final state of an `Except` value whose ok payload is a plain state. -/
def exStS : Except (String × ShellState) ShellState → ShellState
  | .ok s => s
  | .error e => e.2

/-- Final state of a loop yielding an optional early result and a
state. -/
def exSt2 : Except (String × ShellState) (Option CmdResult × ShellState) → ShellState
  | .ok p => p.2
  | .error e => e.2

/-- Final state of the `rm` loop (early result, summary items, state). -/
def exSt3 : Except (String × ShellState) (Option CmdResult × List String × ShellState) → ShellState
  | .ok p => p.2.2
  | .error e => e.2

@[simp] theorem setFs_cur (st : ShellState) (fs : FileSys) :
    (setFs st fs).currentDirectory = st.currentDirectory := rfl

theorem exStS_osMakeDirsE (st : ShellState) (p : String) :
    (exStS (osMakeDirsE st p)).currentDirectory = st.currentDirectory := by
  simp only [osMakeDirsE]
  split <;> rfl

theorem exStS_osTouchE (st : ShellState) (p : String) :
    (exStS (osTouchE st p)).currentDirectory = st.currentDirectory := by
  simp only [osTouchE]
  repeat' split
  all_goals rfl

theorem exStS_osRemoveE (st : ShellState) (p : String) :
    (exStS (osRemoveE st p)).currentDirectory = st.currentDirectory := by
  simp only [osRemoveE]
  repeat' split
  all_goals rfl

theorem osRmtree_cur (st : ShellState) (p : String) :
    (osRmtree st p).currentDirectory = st.currentDirectory := by
  unfold osRmtree
  repeat' split
  all_goals rfl

theorem exStS_osCopyTreeE (st : ShellState) (src dst : String) :
    (exStS (osCopyTreeE st src dst)).currentDirectory = st.currentDirectory := by
  unfold osCopyTreeE
  cases hstat : osStat st src with
  | none => rfl
  | some kv =>
      obtain ⟨k, n⟩ := kv
      cases hm : osMakeDirsE st dst with
      | error e =>
          have h := exStS_osMakeDirsE st dst
          rw [hm] at h
          simpa [exStS] using h
      | ok s' =>
          have h := exStS_osMakeDirsE st dst
          rw [hm] at h
          simpa [exStS, setFs] using h

theorem exStS_osCopy2E (st : ShellState) (src dst : String) :
    (exStS (osCopy2E st src dst)).currentDirectory = st.currentDirectory := by
  simp only [osCopy2E]
  repeat' split
  all_goals rfl

theorem exStS_osMoveE (st : ShellState) (src dst : String) :
    (exStS (osMoveE st src dst)).currentDirectory = st.currentDirectory := by
  simp only [osMoveE]
  repeat' split
  all_goals rfl

theorem osStat_absolute (s : ShellState) (p : String) (h : pyIsAbs p = true) :
    osStat s p = statAbs s.fs p := by
  unfold osStat absOf
  rw [if_pos h]

seal osStat

theorem mkdirLoop_cur (l : List String) : ∀ st : ShellState,
    (exSt2 (mkdirLoop l st)).currentDirectory = st.currentDirectory := by
  induction l with
  | nil => intro st; rfl
  | cons d rest ih =>
      intro st
      simp only [mkdirLoop]
      split
      · rfl
      · cases hm : osMakeDirsE st (resolvePath st d) with
        | ok s' =>
            have h := exStS_osMakeDirsE st (resolvePath st d)
            rw [hm] at h
            simp only [exStS] at h
            rw [ih s', h]
        | error e =>
            have h := exStS_osMakeDirsE st (resolvePath st d)
            rw [hm] at h
            cases e with
            | mk msg s' => simpa [exStS, exSt2] using h

theorem rmdirLoop_cur (l : List String) : ∀ st : ShellState,
    (exSt2 (rmdirLoop l st)).currentDirectory = st.currentDirectory := by
  induction l with
  | nil => intro st; rfl
  | cons d rest ih =>
      intro st
      simp only [rmdirLoop]
      repeat' split
      · rfl
      · rfl
      · rfl
      · rw [ih (setFs st (fsDeleteKey st.fs _))]
        rfl

theorem touchLoop_cur (l : List String) : ∀ st : ShellState,
    (exStS (touchLoop l st)).currentDirectory = st.currentDirectory := by
  induction l with
  | nil => intro st; rfl
  | cons f rest ih =>
      intro st
      simp only [touchLoop]
      cases hm : osTouchE st (resolvePath st f) with
      | ok s' =>
          have h := exStS_osTouchE st (resolvePath st f)
          rw [hm] at h
          simp only [exStS] at h
          rw [ih s', h]
      | error e =>
          have h := exStS_osTouchE st (resolvePath st f)
          rw [hm] at h
          cases e with
          | mk msg s' => simpa [exStS] using h

theorem rmLoop_cur (recursive force : Bool) (l : List String) :
    ∀ acc : List String, ∀ st : ShellState,
    (exSt3 (rmLoop recursive force l acc st)).currentDirectory = st.currentDirectory := by
  induction l with
  | nil => intro acc st; rfl
  | cons f rest ih =>
      intro acc st
      simp only [rmLoop]
      split
      · rfl
      · split
        · split
          · rw [ih (acc ++ ["directory '" ++ f ++ "' and its contents"])
              (osRmtree st (resolvePath st f))]
            exact osRmtree_cur st (resolvePath st f)
          · rfl
        · cases hm : osRemoveE st (resolvePath st f) with
          | ok s' =>
              have h := exStS_osRemoveE st (resolvePath st f)
              rw [hm] at h
              simp only [exStS] at h
              rw [ih (acc ++ ["file '" ++ f ++ "'"]) s', h]
          | error e =>
              have h := exStS_osRemoveE st (resolvePath st f)
              rw [hm] at h
              cases e with
              | mk msg s' => simpa [exStS, exSt3] using h

theorem runCaught_state (body : ShellState → HandlerOut) (st : ShellState) :
    (runCaught body st).2 = exStH (body st) := by
  unfold runCaught exStH
  cases body st with
  | ok p => rfl
  | error e => obtain ⟨m, s⟩ := e; rfl

theorem listDirectory_state (args : List String) (st : ShellState) :
    (listDirectory args st).2 = st := by
  unfold listDirectory
  rw [runCaught_state]
  simp only [listDirBody]
  repeat' split
  all_goals rfl

theorem printWorkingDirectory_state (args : List String) (st : ShellState) :
    (printWorkingDirectory args st).2 = st := rfl

theorem showFileContent_state (args : List String) (st : ShellState) :
    (showFileContent args st).2 = st := by
  unfold showFileContent
  rw [runCaught_state]
  try simp only []
  repeat' split
  all_goals rfl

theorem clearScreen_state (args : List String) (st : ShellState) :
    (clearScreen args st).2 = st := rfl

theorem showHelp_state (args : List String) (st : ShellState) :
    (showHelp args st).2 = st := rfl

theorem showProcesses_state (args : List String) (st : ShellState) :
    (showProcesses args st).2 = st := rfl

theorem whoami_state (args : List String) (st : ShellState) :
    (whoami args st).2 = st := rfl

theorem showDate_state (args : List String) (st : ShellState) :
    (showDate args st).2 = st := rfl

theorem echo_state (args : List String) (st : ShellState) :
    (echo args st).2 = st := rfl

theorem findFiles_state (args : List String) (st : ShellState) :
    (findFiles args st).2 = st := by
  unfold findFiles
  rw [runCaught_state]
  try simp only []
  repeat' split
  all_goals rfl

theorem grepFiles_state (args : List String) (st : ShellState) :
    (grepFiles args st).2 = st := by
  unfold grepFiles
  rw [runCaught_state]
  try simp only []
  repeat' split
  all_goals rfl

theorem showSystemInfo_state (args : List String) (st : ShellState) :
    (showSystemInfo args st).2 = st := rfl

theorem exitTerminal_state (args : List String) (st : ShellState) :
    (exitTerminal args st).2 = st := rfl

theorem makeDirectory_cur (args : List String) (st : ShellState) :
    (makeDirectory args st).2.currentDirectory = st.currentDirectory := by
  unfold makeDirectory
  rw [runCaught_state]
  try simp only []
  split
  · rfl
  · cases hm : mkdirLoop args st with
    | ok p =>
        obtain ⟨r, s'⟩ := p
        have h := mkdirLoop_cur args st
        rw [hm] at h
        simp only [exSt2] at h
        cases r <;> simpa [exStH] using h
    | error e =>
        obtain ⟨msg, s'⟩ := e
        have h := mkdirLoop_cur args st
        rw [hm] at h
        simpa [exSt2, exStH] using h

theorem removeDirectory_cur (args : List String) (st : ShellState) :
    (removeDirectory args st).2.currentDirectory = st.currentDirectory := by
  unfold removeDirectory
  rw [runCaught_state]
  try simp only []
  split
  · rfl
  · cases hm : rmdirLoop args st with
    | ok p =>
        obtain ⟨r, s'⟩ := p
        have h := rmdirLoop_cur args st
        rw [hm] at h
        simp only [exSt2] at h
        cases r <;> simpa [exStH] using h
    | error e =>
        obtain ⟨msg, s'⟩ := e
        have h := rmdirLoop_cur args st
        rw [hm] at h
        simpa [exSt2, exStH] using h

theorem removeFile_cur (args : List String) (st : ShellState) :
    (removeFile args st).2.currentDirectory = st.currentDirectory := by
  unfold removeFile
  rw [runCaught_state]
  try simp only []
  split
  · rfl
  · split
    · rfl
    · cases hm : rmLoop (args.contains "-r" || args.contains "-rf")
          (args.contains "-f" || args.contains "-rf")
          (args.filter fun a => !(pyStartsWith a "-")) [] st with
      | ok p =>
          obtain ⟨r, acc, s'⟩ := p
          have h := rmLoop_cur (args.contains "-r" || args.contains "-rf")
            (args.contains "-f" || args.contains "-rf")
            (args.filter fun a => !(pyStartsWith a "-")) [] st
          rw [hm] at h
          simp only [exSt3] at h
          cases r <;> simpa [exStH] using h
      | error e =>
          obtain ⟨msg, s'⟩ := e
          have h := rmLoop_cur (args.contains "-r" || args.contains "-rf")
            (args.contains "-f" || args.contains "-rf")
            (args.filter fun a => !(pyStartsWith a "-")) [] st
          rw [hm] at h
          simpa [exSt3, exStH] using h

theorem createFile_cur (args : List String) (st : ShellState) :
    (createFile args st).2.currentDirectory = st.currentDirectory := by
  unfold createFile
  rw [runCaught_state]
  try simp only []
  split
  · rfl
  · cases hm : touchLoop args st with
    | ok s' =>
        have h := touchLoop_cur args st
        rw [hm] at h
        simpa [exStS, exStH] using h
    | error e =>
        obtain ⟨msg, s'⟩ := e
        have h := touchLoop_cur args st
        rw [hm] at h
        simpa [exStS, exStH] using h

theorem copyFile_cur (args : List String) (st : ShellState) :
    (copyFile args st).2.currentDirectory = st.currentDirectory := by
  unfold copyFile
  rw [runCaught_state]
  try simp only []
  cases args with
  | nil => rfl
  | cons a0 t =>
      cases t with
      | nil => rfl
      | cons a1 t2 =>
          try simp only []
          split
          · rfl
          · have hP : (exStS (if osIsDir st (resolvePath st a0) = true then
                  osCopyTreeE st (resolvePath st a0) (resolvePath st a1)
                else osCopy2E st (resolvePath st a0) (resolvePath st a1))).currentDirectory
                = st.currentDirectory := by
              split
              · exact exStS_osCopyTreeE st (resolvePath st a0) (resolvePath st a1)
              · exact exStS_osCopy2E st (resolvePath st a0) (resolvePath st a1)
            split
            · rename_i st' heq
              rw [heq] at hP
              simpa [exStS, exStH] using hP
            · rename_i e heq
              obtain ⟨m, s'⟩ := e
              rw [heq] at hP
              simpa [exStS, exStH] using hP

theorem moveFile_cur (args : List String) (st : ShellState) :
    (moveFile args st).2.currentDirectory = st.currentDirectory := by
  unfold moveFile
  rw [runCaught_state]
  try simp only []
  cases args with
  | nil => rfl
  | cons a0 t =>
      cases t with
      | nil => rfl
      | cons a1 t2 =>
          try simp only []
          split
          · rfl
          · cases hop : osMoveE st (resolvePath st a0) (resolvePath st a1) with
            | ok s' =>
                have h := exStS_osMoveE st (resolvePath st a0) (resolvePath st a1)
                rw [hop] at h
                simpa [exStS, exStH] using h
            | error e =>
                obtain ⟨m, s'⟩ := e
                have h := exStS_osMoveE st (resolvePath st a0) (resolvePath st a1)
                rw [hop] at h
                simpa [exStS, exStH] using h

theorem executeSystemCommand_cur (line : String) (st : ShellState) :
    (executeSystemCommand line st).2.currentDirectory = st.currentDirectory := by
  unfold executeSystemCommand
  cases st.world.runShell line st.currentDirectory st.fs <;> rfl

/-- Every registered handler is either the directory-change handler
(registered under `cd` only) or leaves `session.current_directory`
untouched. -/
theorem registry_cases (name : String) (h : PureHandler)
    (hl : supportedCommands name = some h) :
    (name = "cd" ∧ h = changeDirectory) ∨
      (∀ args st, (h args st).2.currentDirectory = st.currentDirectory) := by
  unfold supportedCommands at hl
  split at hl
  all_goals try (cases hl)
  all_goals first
    | exact Or.inl ⟨rfl, rfl⟩
    | exact Or.inr fun args st =>
        congrArg ShellState.currentDirectory (listDirectory_state args st)
    | exact Or.inr fun args st =>
        congrArg ShellState.currentDirectory (printWorkingDirectory_state args st)
    | exact Or.inr fun args st =>
        congrArg ShellState.currentDirectory (showFileContent_state args st)
    | exact Or.inr fun args st =>
        congrArg ShellState.currentDirectory (clearScreen_state args st)
    | exact Or.inr fun args st =>
        congrArg ShellState.currentDirectory (showHelp_state args st)
    | exact Or.inr fun args st =>
        congrArg ShellState.currentDirectory (showProcesses_state args st)
    | exact Or.inr fun args st =>
        congrArg ShellState.currentDirectory (whoami_state args st)
    | exact Or.inr fun args st =>
        congrArg ShellState.currentDirectory (showDate_state args st)
    | exact Or.inr fun args st =>
        congrArg ShellState.currentDirectory (echo_state args st)
    | exact Or.inr fun args st =>
        congrArg ShellState.currentDirectory (findFiles_state args st)
    | exact Or.inr fun args st =>
        congrArg ShellState.currentDirectory (grepFiles_state args st)
    | exact Or.inr fun args st =>
        congrArg ShellState.currentDirectory (showSystemInfo_state args st)
    | exact Or.inr fun args st =>
        congrArg ShellState.currentDirectory (exitTerminal_state args st)
    | exact Or.inr fun args st => makeDirectory_cur args st
    | exact Or.inr fun args st => removeDirectory_cur args st
    | exact Or.inr fun args st => removeFile_cur args st
    | exact Or.inr fun args st => createFile_cur args st
    | exact Or.inr fun args st => copyFile_cur args st
    | exact Or.inr fun args st => moveFile_cur args st

/-- The `try` body of `execute_command` never raises with the real
registry: empty input short-circuits, non-empty input always tokenizes to
at least one token, and every registered handler (and the system-command
fallback) returns a result record. -/
theorem executeCore_real_ok (line : String) (st : ShellState) :
    ∃ p, executeCoreWith liftedRegistry line st = Except.ok p := by
  unfold executeCoreWith
  by_cases hs : pyStrip line = ""
  · exact ⟨_, by rw [if_pos hs]⟩
  · rw [if_neg hs]
    cases hp : parseCommand line with
    | nil => exact absurd hp (parseCommand_ne_nil line hs)
    | cons cmd args =>
        show ∃ p, dispatchWith liftedRegistry line cmd args st = Except.ok p
        unfold dispatchWith
        cases hr : liftedRegistry (pyLower cmd) with
        | none => exact ⟨_, rfl⟩
        | some f =>
            obtain ⟨g, _, rfl⟩ := Option.map_eq_some'.mp hr
            exact ⟨_, rfl⟩

set_option maxHeartbeats 2000000 in
/-- When `cd` actually changes `session.current_directory`, the new value
is the canonicalized form of a target validated — against the unchanged
filesystem — to exist and be a directory. -/
theorem changeDirectory_validated (args : List String) (st : ShellState)
    (hne : (changeDirectory args st).2.currentDirectory ≠ st.currentDirectory) :
    ∃ t k, osStat st t = some (k, FsNode.dir) ∧
      (changeDirectory args st).2.currentDirectory = pyAbspath st.processCwd t ∧
      (changeDirectory args st).2.fs = st.fs := by
  unfold changeDirectory at hne ⊢
  rw [runCaught_state] at hne ⊢
  unfold changeDirBody at hne ⊢
  by_cases hex : osExists st (cdTarget args st) = true
  · rw [if_neg (not_not_intro hex)] at hne ⊢
    by_cases hdir : osIsDir st (cdTarget args st) = true
    · rw [if_neg (not_not_intro hdir)] at hne ⊢
      have hk : ∃ k, osStat st (cdTarget args st) = some (k, FsNode.dir) := by
        unfold osIsDir at hdir
        cases hstat : osStat st (cdTarget args st) with
        | none => rw [hstat] at hdir; simp at hdir
        | some kv =>
            obtain ⟨k, n⟩ := kv
            cases n with
            | file c => rw [hstat] at hdir; simp at hdir
            | dir => exact ⟨k, rfl⟩
      obtain ⟨k, hk⟩ := hk
      clear hne hex hdir
      exact ⟨cdTarget args st, k, hk, rfl, rfl⟩
    · rw [if_pos hdir] at hne
      exact absurd rfl hne
  · rw [if_pos hex] at hne
    exact absurd rfl hne

theorem pyAbspath_abs (cwd p : String) (h : pyIsAbs p = true) :
    pyAbspath cwd p = pyNormpath p := by
  unfold pyAbspath
  rw [if_pos h]

theorem strAppend_assoc (a b c : String) : a ++ b ++ c = a ++ (b ++ c) := by
  cases a with
  | mk la =>
      cases b with
      | mk lb =>
          cases c with
          | mk lc =>
              show String.mk (la ++ lb ++ lc) = String.mk (la ++ (lb ++ lc))
              rw [List.append_assoc]

theorem executeWith_state (reg : String → Option ExcHandler) (line : String)
    (st : ShellState) :
    (executeWith reg line st).2 = exStH (executeCoreWith reg line st) := by
  unfold executeWith exStH
  cases executeCoreWith reg line st with
  | ok p => rfl
  | error e => rfl

theorem executeCore_empty (reg : String → Option ExcHandler) (line : String)
    (st : ShellState) (hs : pyStrip line = "") :
    executeCoreWith reg line st = .ok (⟨true, "", ""⟩, st) := by
  unfold executeCoreWith
  rw [if_pos hs]

theorem executeCore_cons (reg : String → Option ExcHandler) (line : String)
    (st : ShellState) (cmd : String) (args : List String)
    (hp : parseCommand line = cmd :: args) :
    executeCoreWith reg line st = dispatchWith reg line cmd args st := by
  unfold executeCoreWith
  rw [if_neg (strip_ne_of_parse_cons line cmd args hp), hp]

theorem dispatch_lookup (reg : String → Option ExcHandler) (line cmd : String)
    (args : List String) (st : ShellState) (f : ExcHandler)
    (hr : reg (pyLower cmd) = some f) :
    dispatchWith reg line cmd args st = f args st := by
  unfold dispatchWith
  rw [hr]

theorem dispatch_fallback (reg : String → Option ExcHandler) (line cmd : String)
    (args : List String) (st : ShellState)
    (hr : reg (pyLower cmd) = none) :
    dispatchWith reg line cmd args st = .ok (executeSystemCommand line st) := by
  unfold dispatchWith
  rw [hr]

/-- Behaviour of `cd X` for an absolute `X`: resolution is independent of
the session state, so the call either moves to `normpath X` (when `X`
denotes an existing directory) or leaves the state untouched. -/
theorem cd_abs (X : String) (st : ShellState) (h : pyIsAbs X = true) :
    ((∃ k, statAbs st.fs X = some (k, FsNode.dir)) →
      (changeDirectory [X] st).2 =
        { st with currentDirectory := pyNormpath X, processCwd := pyNormpath X }) ∧
    ((¬ ∃ k, statAbs st.fs X = some (k, FsNode.dir)) →
      (changeDirectory [X] st).2 = st) := by
  have ht : cdTarget [X] st = X := by
    show (if pyIsAbs X = true then X else pyJoin st.currentDirectory X) = X
    rw [if_pos h]
  unfold changeDirectory
  rw [runCaught_state]
  unfold changeDirBody
  rw [ht]
  unfold osExists osIsDir
  rw [osStat_absolute st X h]
  cases hstat : statAbs st.fs X with
  | none =>
      constructor
      · rintro ⟨k, hk⟩
        cases hk
      · intro _
        rfl
  | some kv =>
      obtain ⟨k, n⟩ := kv
      cases n with
      | file c =>
          constructor
          · rintro ⟨k', hk⟩
            simp at hk
          · intro _
            rfl
      | dir =>
          constructor
          · intro _
            show ({ st with currentDirectory := pyAbspath st.processCwd X,
                            processCwd := pyAbspath st.processCwd X } : ShellState) = _
            rw [pyAbspath_abs st.processCwd X h]
          · intro hn
            exact absurd ⟨k, rfl⟩ hn

unseal osStat

/-! ## Concrete data for witnesses and counterexamples -/

/-- A fixed external world for concrete runs: the host interpreter
succeeds with exit code 0 and output `ok` and leaves the filesystem
unchanged. -/
def sampleWorld : World :=
  { home := "/home/user", user := "user", dateStr := "2026-10-12 00:00:00",
    psTable := "PID NAME CPU", sysInfo := "System Information",
    runShell := fun _ _ fs => SubprocessOutcome.completed 0 "ok" "" fs }

/-- `/a` and `/a/b` are directories, `/a/b/f.txt` and `/there` files. -/
def sampleFs : FileSys :=
  [(["a"], FsNode.dir), (["a", "b"], FsNode.dir),
   (["a", "b", "f.txt"], FsNode.file "hello"), (["there"], FsNode.file "x")]

/-- Engine state as built by `CommandHandler.__init__` with the process
started in `/a/b`. -/
def sampleState : ShellState := initState sampleFs "/a/b" sampleWorld

/-- A handler that raises, for exercising the dispatch boundary. -/
def toyBoom : ExcHandler := fun _ st => .error ("kaboom", st)

/-- A one-entry registry whose sole handler raises. -/
def toyRegistry : String → Option ExcHandler :=
  fun n => if n = "boom" then some toyBoom else none

/-! ## Claims -/

/-- C1 (counterexample): from the initial state in `/a/b`, the built-in
`rm -r /a/b` succeeds and deletes the directory `current_directory`
denotes; the next handler that reads it (`ls` with no argument) then
observes a path that no longer exists, so the claimed invariant does not
hold at every read. -/
theorem c1_invariant_counterexample :
    sampleState.currentDirectory = sampleState.processCwd ∧
    osIsDir sampleState sampleState.currentDirectory = true ∧
    (executeCommand "rm -r /a/b" sampleState).1.success = true ∧
    osIsDir (executeCommand "rm -r /a/b" sampleState).2
      (executeCommand "rm -r /a/b" sampleState).2.currentDirectory = false ∧
    (executeCommand "ls" (executeCommand "rm -r /a/b" sampleState).2).1.success = false := by
  decide

set_option maxHeartbeats 2000000 in
/-- C1 (amended): `session.current_directory` is only ever *mutated* to
the canonicalized form of a target that was validated, against the
filesystem in place at that moment, to exist and be a directory; the
spec's stronger reading — that the path is still an existing directory at
every later read — fails because `rm -r` (or an external command) can
delete the directory out from under the unchanged `current_directory`. -/
theorem c1_current_directory_validated_at_mutation (line : String) (st : ShellState)
    (hne : (executeCommand line st).2.currentDirectory ≠ st.currentDirectory) :
    ∃ t k, osStat st t = some (k, FsNode.dir) ∧
      (executeCommand line st).2.currentDirectory = pyAbspath st.processCwd t ∧
      (executeCommand line st).2.fs = st.fs := by
  by_cases hs : pyStrip line = ""
  · have h : executeCommand line st = (⟨true, "", ""⟩, st) := by
      unfold executeCommand executeWith
      rw [executeCore_empty liftedRegistry line st hs]
    rw [h] at hne
    exact absurd rfl hne
  · cases hp : parseCommand line with
    | nil => exact absurd hp (parseCommand_ne_nil line hs)
    | cons cmd args =>
        have hcore := executeCore_cons liftedRegistry line st cmd args hp
        cases hr : liftedRegistry (pyLower cmd) with
        | none =>
            have h : executeCommand line st = executeSystemCommand line st := by
              unfold executeCommand executeWith
              rw [hcore, dispatch_fallback liftedRegistry line cmd args st hr]
            rw [h] at hne
            exact absurd (executeSystemCommand_cur line st) hne
        | some f =>
            obtain ⟨g, hg, rfl⟩ := Option.map_eq_some'.mp hr
            have h : executeCommand line st = g args st := by
              unfold executeCommand executeWith
              rw [hcore, dispatch_lookup liftedRegistry line cmd args st _ hr]
              rfl
            rcases registry_cases (pyLower cmd) g hg with ⟨hn, hcd⟩ | hpres
            · subst hcd
              rw [h] at hne ⊢
              exact changeDirectory_validated args st hne
            · rw [h] at hne
              exact absurd (hpres args st) hne

/-- C1 witness: `cd /a` from `/a/b` changes the session directory, and
the theorem certifies the validated target. -/
theorem c1_witness :
    (executeCommand "cd /a" sampleState).2.currentDirectory ≠
      sampleState.currentDirectory ∧
    (∃ t k, osStat sampleState t = some (k, FsNode.dir) ∧
      (executeCommand "cd /a" sampleState).2.currentDirectory =
        pyAbspath sampleState.processCwd t ∧
      (executeCommand "cd /a" sampleState).2.fs = sampleState.fs) :=
  ⟨by decide, c1_current_directory_validated_at_mutation "cd /a" sampleState (by decide)⟩

/-- C2: the dispatch never aborts the session.  (i) with the real
registry the `try` body of `execute_command` returns a result record for
every input line; (ii) at the dispatch boundary, an exception a handler
lets escape becomes `{success: false, output: "", error: "Error executing
command: <msg>"}`; (iii) the engine's `execute_command` is exactly this
guarded dispatch. -/
theorem c2_execute_total_and_catch_all :
    (∀ line st, ∃ p, executeCoreWith liftedRegistry line st = Except.ok p) ∧
    (∀ (reg : String → Option ExcHandler) line st cmd args (f : ExcHandler) e st',
      parseCommand line = cmd :: args →
      reg (pyLower cmd) = some f →
      f args st = .error (e, st') →
      executeWith reg line st =
        (⟨false, "", "Error executing command: " ++ e⟩, st')) ∧
    (∀ line st, executeCommand line st = executeWith liftedRegistry line st) := by
  refine ⟨executeCore_real_ok, ?_, fun _ _ => rfl⟩
  intro reg line st cmd args f e st' hp hf herr
  unfold executeWith
  rw [executeCore_cons reg line st cmd args hp,
    dispatch_lookup reg line cmd args st f hf, herr]

/-- C2 witness: a raising toy handler is converted at the boundary, and
the real engine's body returns a record on a sample line. -/
theorem c2_witness :
    executeWith toyRegistry "boom now" sampleState =
      (⟨false, "", "Error executing command: kaboom"⟩, sampleState) ∧
    (∃ p, executeCoreWith liftedRegistry "ls" sampleState = Except.ok p) :=
  ⟨c2_execute_total_and_catch_all.2.1 toyRegistry "boom now" sampleState "boom" ["now"]
      toyBoom "kaboom" sampleState (by decide) rfl rfl,
    c2_execute_total_and_catch_all.1 "ls" sampleState⟩

/-- C3: the claim is what the code plainly intends (`-f` suppresses the
missing-file error — see the `and not force` guard and the help text),
but the loop falls through to `os.remove`, which raises
`FileNotFoundError` on the missing path; the handler's generic `except`
turns that into a failure and the remaining targets are never processed:
`/there` still exists afterwards. -/
theorem c3_force_missing_file_reports_error :
    (executeCommand "rm -f /missing" sampleState).1.success = false ∧
    (executeCommand "rm -f /missing" sampleState).1.error =
      "[Errno 2] No such file or directory: '/missing'" ∧
    (executeCommand "rm -f /missing /there" sampleState).1.success = false ∧
    ((executeCommand "rm -f /missing /there" sampleState).2.fs.lookup ["there"]).isSome
      = true := by
  decide

/-- C4 (counterexample): from `/a/b`, `cd ..` succeeds and moves to `/a`;
repeating it moves to `/`, so `cd X; cd X` does not end where one `cd X`
ends when `X` is relative. -/
theorem c4_cd_idempotence_counterexample :
    (executeCommand "cd .." sampleState).1.success = true ∧
    (executeCommand "cd .." sampleState).2.currentDirectory = "/a" ∧
    (executeCommand "cd .." (executeCommand "cd .." sampleState).2).1.success = true ∧
    (executeCommand "cd .." (executeCommand "cd .." sampleState).2).2.currentDirectory
      = "/" ∧
    (executeCommand "cd .." (executeCommand "cd .." sampleState).2).2.currentDirectory
      ≠ (executeCommand "cd .." sampleState).2.currentDirectory := by
  decide

/-- C4 (amended): repetition of `change-dir X` is idempotent whenever `X`
is an absolute path (the second resolution then no longer depends on the
directory the first call moved to); for a relative `X` such as `..` the
two calls can end in different directories. -/
theorem c4_cd_idempotent_for_absolute (X : String) (st : ShellState)
    (h : pyIsAbs X = true) :
    (changeDirectory [X] (changeDirectory [X] st).2).2.currentDirectory =
      (changeDirectory [X] st).2.currentDirectory := by
  by_cases hdir : ∃ k, statAbs st.fs X = some (k, FsNode.dir)
  · have h1 := (cd_abs X st h).1 hdir
    have hdir' : ∃ k, statAbs (changeDirectory [X] st).2.fs X = some (k, FsNode.dir) := by
      rw [h1]
      exact hdir
    have h2 := (cd_abs X (changeDirectory [X] st).2 h).1 hdir'
    rw [h2, h1]
  · have h1 := (cd_abs X st h).2 hdir
    rw [h1, h1]

/-- C4 witness: `cd /a` twice from `/a/b` ends where one `cd /a` ends. -/
theorem c4_witness :
    pyIsAbs "/a" = true ∧
    (changeDirectory ["/a"] (changeDirectory ["/a"] sampleState).2).2.currentDirectory =
      (changeDirectory ["/a"] sampleState).2.currentDirectory :=
  ⟨by decide, c4_cd_idempotent_for_absolute "/a" sampleState (by decide)⟩

/-- C5: a line that strips to nothing short-circuits before tokenization,
dispatch or any filesystem access: the result is the no-op success record
and the state — filesystem, session directory, process directory — is
returned unchanged. -/
theorem c5_whitespace_noop (line : String) (st : ShellState)
    (h : pyStrip line = "") :
    executeCommand line st = (⟨true, "", ""⟩, st) := by
  unfold executeCommand executeWith
  rw [executeCore_empty liftedRegistry line st h]

/-- C5 witness at a tab-and-spaces line. -/
theorem c5_witness :
    executeCommand " \t " sampleState = (⟨true, "", ""⟩, sampleState) :=
  c5_whitespace_noop " \t " sampleState (by decide)

/-- C6: `remove-dir` on a resolved target that exists, is a directory and
is non-empty returns `success = false` with the `is not empty` message
and leaves the whole state — in particular the directory and everything
below it — unchanged; the error text decomposes around the literal
`"not empty"`. -/
theorem c6_rmdir_nonempty_fails_unchanged (d : String) (st : ShellState)
    (k : List String)
    (h1 : osStat st (resolvePath st d) = some (k, FsNode.dir))
    (h2 : childNames st.fs k ≠ []) :
    removeDirectory [d] st =
      (⟨false, "", "Directory '" ++ resolvePath st d ++
        "' is not empty. Use 'rm -r' to remove non-empty directories"⟩, st) ∧
    (removeDirectory [d] st).1.error =
      ("Directory '" ++ resolvePath st d ++ "' is ") ++ "not empty" ++
        ". Use 'rm -r' to remove non-empty directories" := by
  have hloop : rmdirLoop [d] st =
      .ok (some ⟨false, "", "Directory '" ++ resolvePath st d ++
        "' is not empty. Use 'rm -r' to remove non-empty directories"⟩, st) := by
    simp only [rmdirLoop]
    rw [h1]
    simp [h2]
  have hmain : removeDirectory [d] st =
      (⟨false, "", "Directory '" ++ resolvePath st d ++
        "' is not empty. Use 'rm -r' to remove non-empty directories"⟩, st) := by
    unfold removeDirectory runCaught
    try simp only []
    rw [hloop]
    rfl
  refine ⟨hmain, ?_⟩
  rw [hmain]
  show "Directory '" ++ resolvePath st d ++
      "' is not empty. Use 'rm -r' to remove non-empty directories" = _
  rw [strAppend_assoc ("Directory '" ++ resolvePath st d ++ "' is ") "not empty" _,
    strAppend_assoc ("Directory '" ++ resolvePath st d) "' is " _,
    strAppend_assoc "Directory '" (resolvePath st d) _,
    strAppend_assoc "Directory '" (resolvePath st d) _]
  congr 1

/-- C6 witness: `rmdir /a/b` with `/a/b` containing `f.txt`. -/
theorem c6_witness :
    (removeDirectory ["/a/b"] sampleState).1.success = false ∧
    (removeDirectory ["/a/b"] sampleState).2 = sampleState := by
  have h := c6_rmdir_nonempty_fails_unchanged "/a/b" sampleState ["a", "b"]
    (by decide) (by decide)
  rw [h.1]
  exact ⟨rfl, rfl⟩

/-- C7: `session.current_directory` is written only by the
directory-change operation: every handler registered under a name other
than `cd`, and the external-process runner, return a state whose
`current_directory` equals the one they were called with. -/
theorem c7_current_directory_frame :
    (∀ name h args st, supportedCommands name = some h → name ≠ "cd" →
      (h args st).2.currentDirectory = st.currentDirectory) ∧
    (∀ line st,
      (executeSystemCommand line st).2.currentDirectory = st.currentDirectory) := by
  constructor
  · intro name h args st hl hne
    rcases registry_cases name h hl with ⟨hn, _⟩ | hp
    · exact absurd hn hne
    · exact hp args st
  · exact executeSystemCommand_cur

/-- C7 witness: a recursive `rm` of a directory leaves the session
directory alone. -/
theorem c7_witness :
    (removeFile ["-r", "/a"] sampleState).2.currentDirectory =
      sampleState.currentDirectory :=
  c7_current_directory_frame.1 "rm" removeFile ["-r", "/a"] sampleState rfl (by decide)

/-- C8: a first token whose lowercasing is not in the registry sends the
original, untokenized line to the external-process runner, and on normal
completion `success` is exactly `returncode == 0`. -/
theorem c8_unknown_command_passthrough (line : String) (st : ShellState)
    (cmd : String) (args : List String) (rc : Int) (out err : String) (fs' : FileSys)
    (hp : parseCommand line = cmd :: args)
    (hl : supportedCommands (pyLower cmd) = none)
    (hrun : st.world.runShell line st.currentDirectory st.fs =
      SubprocessOutcome.completed rc out err fs') :
    executeCommand line st = executeSystemCommand line st ∧
    (executeCommand line st).1.success = (rc == 0) := by
  have hlr : liftedRegistry (pyLower cmd) = none := by
    unfold liftedRegistry
    rw [hl]
    rfl
  have h1 : executeCommand line st = executeSystemCommand line st := by
    unfold executeCommand executeWith
    rw [executeCore_cons liftedRegistry line st cmd args hp,
      dispatch_fallback liftedRegistry line cmd args st hlr]
  refine ⟨h1, ?_⟩
  rw [h1]
  unfold executeSystemCommand
  rw [hrun]

/-- C8 witness: `zzzz foo` is unregistered; the sample interpreter exits
with code 0. -/
theorem c8_witness :
    executeCommand "zzzz foo" sampleState = executeSystemCommand "zzzz foo" sampleState ∧
    (executeCommand "zzzz foo" sampleState).1.success = ((0 : Int) == 0) :=
  c8_unknown_command_passthrough "zzzz foo" sampleState "zzzz" ["foo"] 0 "ok" ""
    sampleState.fs (by decide) rfl rfl

/-- C9 (counterexample): the tokenizer performs no quote removal, so the
input line `echo "a" "b"` produces the output `"a" "b"` with literal
quote characters — not `a b` as the claim's example states. -/
theorem c9_echo_quotes_counterexample :
    (executeCommand "echo \"a\" \"b\"" sampleState).1.output = "\"a\" \"b\"" ∧
    (executeCommand "echo \"a\" \"b\"" sampleState).1.output ≠ "a b" := by
  decide

/-- C9 (amended): `echo` succeeds with output exactly its
whitespace-split arguments joined by single spaces and nothing appended;
quote characters in the line survive tokenization literally, so
`echo a b` gives `a b` while `echo "a" "b"` gives `"a" "b"`. -/
theorem c9_echo_joins_tokens (line : String) (st : ShellState) (cmd : String)
    (args : List String) (hp : parseCommand line = cmd :: args)
    (hc : pyLower cmd = "echo") :
    executeCommand line st = (⟨true, String.intercalate " " args, ""⟩, st) := by
  have hlr : liftedRegistry (pyLower cmd) = some (liftHandler echo) := by
    rw [hc]
    rfl
  unfold executeCommand executeWith
  rw [executeCore_cons liftedRegistry line st cmd args hp,
    dispatch_lookup liftedRegistry line cmd args st (liftHandler echo) hlr]
  rfl

/-- C9 witness: `echo a b` outputs exactly `a b`. -/
theorem c9_witness : (executeCommand "echo a b" sampleState).1.output = "a b" := by
  rw [c9_echo_joins_tokens "echo a b" sampleState "echo" ["a", "b"] (by decide) rfl]
  decide

/-- C10: when the `cd` target does not resolve to an existing directory
(missing path or non-directory alike), the call fails and returns the
input state verbatim — session directory, process working directory and
filesystem all unchanged. -/
theorem c10_cd_failure_no_state_change (args : List String) (st : ShellState)
    (hbad : osIsDir st (cdTarget args st) = false) :
    (changeDirectory args st).2 = st ∧
    (changeDirectory args st).1.success = false := by
  unfold changeDirectory runCaught changeDirBody
  by_cases hex : osExists st (cdTarget args st) = true
  · rw [if_neg (not_not_intro hex), if_pos (by simp [hbad])]
    exact ⟨rfl, rfl⟩
  · rw [if_pos hex]
    exact ⟨rfl, rfl⟩

/-- C10 witness: `cd /nope` from `/a/b` fails and changes nothing. -/
theorem c10_witness :
    (changeDirectory ["/nope"] sampleState).2 = sampleState ∧
    (changeDirectory ["/nope"] sampleState).1.success = false :=
  c10_cd_failure_no_state_change ["/nope"] sampleState (by decide)
